import Mathlib

/-!
Shallow embedding of `backup_script.py` from the Backup-Script repository.

The script is a Tkinter backup tool.  We embed the pure computations
(`get_folder_size`, `get_available_space`, the archive naming scheme) as Lean
functions, and the effectful ones (`confirm_space`, `create_zip_backup`,
`create_encrypted_zip`, `upload_to_google_drive`, `background_backup_task`,
`on_backup_button`, the scheduler loop) as functions that also return an
explicit trace of observable events: dialogs, filesystem reads and writes,
status-label updates and progress-bar updates.  Interactive dialog answers,
file sizes, disk free space, and upload success are inputs of the embedding,
mirroring the values the Python runtime would deliver.
-/

namespace BackupScript

/-- A file in the source tree: its path relative to the source root, the result
of `os.path.getsize` on it (`none` models a size that cannot be read, i.e. the
`except` branch of `get_folder_size`), and whether `zipfile.ZipFile.write`
succeeds on it (the `try` branch of the copy loop in `create_zip_backup`). -/
structure SrcFile where
  relpath : String
  size : Option Nat
  addOk : Bool
deriving DecidableEq

/-- A wall-clock reading at second granularity, as consumed by
`datetime.now().strftime("%Y%m%d_%H%M%S")` in `create_zip_backup` and
`create_encrypted_zip`. -/
structure DateTime where
  year : Nat
  month : Nat
  day : Nat
  hour : Nat
  minute : Nat
  second : Nat
deriving DecidableEq

/-- Field bounds under which the zero-padded `strftime("%Y%m%d_%H%M%S")`
rendering is faithful (every real calendar reading satisfies them). -/
def validDT (t : DateTime) : Prop :=
  t.year < 10000 ∧ t.month < 100 ∧ t.day < 100 ∧ t.hour < 100 ∧
    t.minute < 100 ∧ t.second < 100

instance (t : DateTime) : Decidable (validDT t) := by
  unfold validDT; infer_instance

/-- Observable events of one run: user dialogs, filesystem accesses on the
source tree and the destination, the Google auth flow, archive writes, upload
attempts, status-label updates and progress-bar updates. -/
inductive Event where
  | askDirectory (title : String)
  | askYesNoDialog (title : String)
  | askString (title : String)
  | showErrorDialog (title : String)
  | showWarning (title : String)
  | showInfo (title : String)
  | authFlow
  | walkSource (p : String)
  | statFile (p : String)
  | readDestSpace (p : String)
  | makeDirs (p : String)
  | readSrcFile (p : String)
  | srcFileError (p : String)
  | writeArchive (p : String)
  | removeFile (p : String)
  | uploadAttempt (p : String)
  | status (t : String)
  | progress (current total : Nat)
deriving DecidableEq

/-- Accesses (reads or writes) of the source tree or destination filesystem.
The credential events (`authFlow`) touch only `token.pickle` in the script
directory, which is neither the source nor the destination. -/
def isFsAccess : Event → Bool
  | .walkSource _ => true
  | .statFile _ => true
  | .readDestSpace _ => true
  | .makeDirs _ => true
  | .readSrcFile _ => true
  | .srcFileError _ => true
  | .writeArchive _ => true
  | .removeFile _ => true
  | _ => false

/-- Filesystem mutations: directory creation, archive writes, file removal. -/
def isFsWrite : Event → Bool
  | .makeDirs _ => true
  | .writeArchive _ => true
  | .removeFile _ => true
  | _ => false

/-- Progress-bar callback invocations. -/
def isProgress : Event → Bool
  | .progress _ _ => true
  | _ => false

/-- Archive-file creation events. -/
def isArchiveWrite : Event → Bool
  | .writeArchive _ => true
  | _ => false

/-- File-removal events. -/
def isRemove : Event → Bool
  | .removeFile _ => true
  | _ => false

/-- Google Drive transfer attempts. -/
def isUploadEvent : Event → Bool
  | .uploadAttempt _ => true
  | _ => false

/-- Per-file processing events of the plain-zip copy loop. -/
def isFileProc : Event → Bool
  | .readSrcFile _ => true
  | .srcFileError _ => true
  | _ => false

/-- The text carried by a status-label update, if any. -/
def statusOf : Event → Option String
  | .status t => some t
  | _ => none

/-- The sequence of status-label texts emitted by a trace (the
`update_status` channel). -/
def statuses (tr : List Event) : List String :=
  tr.filterMap statusOf

/-- Python truthiness of the `simpledialog.askstring` result: `None`
(cancelled) and the empty string are both falsy under `if not password`. -/
def passTruthy : Option String → Bool
  | none => false
  | some s => !(s == "")

/-! ## File / folder utilities (`get_folder_size`, `get_available_space`,
`confirm_space`, lines 118-161) -/

/-- `get_folder_size`: walks the tree and sums `os.path.getsize` per file; a
file whose size cannot be read is logged and skipped, i.e. contributes
nothing to the accumulator. -/
def get_folder_size (files : List SrcFile) : Nat :=
  files.foldl (fun total_size f => total_size + f.size.getD 0) 0

/-- `get_available_space`: `shutil.disk_usage(destination).free`, or `0` when
`disk_usage` raises (`none` models the raising case). -/
def get_available_space (du : Option Nat) : Nat :=
  du.getD 0

/-- The filesystem accesses performed by `get_folder_size`: one `os.walk`
plus one `getsize` per file. -/
def sizeEvents (source_folder : String) (files : List SrcFile) : List Event :=
  Event.walkSource source_folder :: files.map (fun f => Event.statFile f.relpath)

/-- `confirm_space`: computes the source size and the destination free space;
if free space is short it shows an error dialog and returns `False`,
otherwise it asks the user to confirm and returns the user's answer.
`du` is the `disk_usage` outcome and `user_confirm` the `askyesno` answer. -/
def confirm_space (source_folder backup_destination : String)
    (files : List SrcFile) (du : Option Nat) (user_confirm : Bool) :
    Bool × List Event :=
  let source_size := get_folder_size files
  let available_space := get_available_space du
  let tr := sizeEvents source_folder files ++
    [Event.readDestSpace backup_destination]
  if available_space < source_size then
    (false, tr ++ [Event.showErrorDialog "Insufficient Space"])
  else
    (user_confirm, tr ++ [Event.askYesNoDialog "Confirm Backup"])

/-! ## Artifact naming (`create_zip_backup` lines 188-191,
`create_encrypted_zip` lines 220-223) -/

/-- The path separator used by `os.path` on POSIX. -/
def sep : Char := '/'

/-- `source_folder.rstrip(os.sep)`: drop trailing separators. -/
def rstrip_sep (s : String) : String :=
  String.mk ((s.toList.reverse.dropWhile (fun c => c == sep)).reverse)

/-- `os.path.basename`: the component after the last separator. -/
def basename (s : String) : String :=
  String.mk
    (((rstrip_sep s).toList.reverse.takeWhile (fun c => !(c == sep))).reverse)

/-- One decimal digit as a character. -/
def digitChar (n : Nat) : Char :=
  Char.ofNat (48 + n)

/-- `n` rendered as exactly `w` decimal digits, zero padded, most significant
first: the behaviour of `strftime`'s `%Y`/`%m`/`%d`/`%H`/`%M`/`%S` fields
for in-range values. -/
def padDigits : Nat → Nat → List Char
  | 0, _ => []
  | w + 1, n => padDigits w (n / 10) ++ [digitChar (n % 10)]

/-- Zero-padded decimal rendering as a string. -/
def pad (w n : Nat) : String :=
  String.mk (padDigits w n)

/-- `datetime.now().strftime("%Y%m%d_%H%M%S")`. -/
def timestampStr (t : DateTime) : String :=
  pad 4 t.year ++ pad 2 t.month ++ pad 2 t.day ++ "_" ++
    pad 2 t.hour ++ pad 2 t.minute ++ pad 2 t.second

/-- The artifact filename produced by both build modes:
`f"{folder_name}_backup_{timestamp}.zip"`. -/
def zip_filename (folder_name : String) (t : DateTime) : String :=
  folder_name ++ "_backup_" ++ timestampStr t ++ ".zip"

/-! ## Archive builders (`create_zip_backup` lines 183-213,
`create_encrypted_zip` lines 215-244) -/

/-- The copy loop of `create_zip_backup`: each file is written into the
archive (or the failure is logged), and the `finally` block unconditionally
increments `current_file` and invokes the progress callback with the
precomputed total. -/
def zipFileEvents : List SrcFile → Nat → Nat → List Event
  | [], _, _ => []
  | f :: fs, current_file, total_files =>
    (if f.addOk then Event.readSrcFile f.relpath
     else Event.srcFileError f.relpath) ::
      Event.progress (current_file + 1) total_files ::
        zipFileEvents fs (current_file + 1) total_files

/-- `create_zip_backup`: derives the timestamped name, counts the files with
one walk, opens the archive for writing at the destination, then runs the
copy loop over a second walk.  Returns the archive path. -/
def create_zip_backup (source_folder backup_destination : String)
    (files : List SrcFile) (ts : DateTime) : String × List Event :=
  let folder_name := basename source_folder
  let zip_path := backup_destination ++ "/" ++ zip_filename folder_name ts
  let total_files := files.length
  (zip_path,
    Event.walkSource source_folder :: Event.writeArchive zip_path ::
      Event.walkSource source_folder :: zipFileEvents files 0 total_files)

/-- `create_encrypted_zip`: derives the timestamped name, collects the file
list with one walk, then `pyminizip.compress_multiple` reads every file and
writes the single encrypted archive at the destination (no per-file progress
callback exists).  Returns the archive path. -/
def create_encrypted_zip (source_folder backup_destination : String)
    (files : List SrcFile) (password : String) (ts : DateTime) :
    String × List Event :=
  let folder_name := basename source_folder
  let zip_path := backup_destination ++ "/" ++ zip_filename folder_name ts
  (zip_path,
    Event.walkSource source_folder ::
      (files.map (fun f => Event.readSrcFile f.relpath) ++
        [Event.writeArchive zip_path]))

/-! ## Upload (`upload_to_google_drive` lines 251-270) -/

/-- `upload_to_google_drive`: attempts the transfer; on any exception it logs
and shows an "Upload Error" dialog, swallowing the error.  It never raises to
its caller and never touches the local archive file. -/
def upload_to_google_drive (file_path : String) (uploadOk : Bool) :
    List Event :=
  Event.uploadAttempt file_path ::
    (if uploadOk then [] else [Event.showErrorDialog "Upload Error"])

/-! ## Background task (`background_backup_task` lines 277-317) -/

/-- `background_backup_task`: builds the archive (encrypted when
`encrypt and password` is truthy, plain otherwise), reports
"Backup Completed", then — only when `do_upload and creds` — runs the upload
block bracketed by "Uploading to Google Drive..." and "Upload Completed",
and finally shows the success dialog.  Returns the archive path. -/
def background_backup_task (source_folder backup_destination : String)
    (encrypt : Bool) (password : Option String) (do_upload : Bool)
    (creds : Bool) (files : List SrcFile) (ts : DateTime)
    (uploadOk : Bool) : String × List Event :=
  let build :=
    if encrypt && passTruthy password then
      create_encrypted_zip source_folder backup_destination files
        (password.getD "") ts
    else
      create_zip_backup source_folder backup_destination files ts
  let uploadEvents :=
    if do_upload && creds then
      Event.status "Uploading to Google Drive..." ::
        (upload_to_google_drive build.1 uploadOk ++
          [Event.status "Upload Completed"])
    else []
  (build.1,
    Event.status "Creating Backup..." ::
      (build.2 ++ [Event.status "Backup Completed"] ++ uploadEvents ++
        [Event.showInfo "Success"]))

/-! ## Interactive flow (`on_backup_button` lines 324-414) -/

/-- The answers the environment returns to each interaction of
`on_backup_button`, plus the filesystem facts it observes. -/
structure Env where
  encrypt : Bool
  upload : Bool
  chooseStorage : Bool
  sourceFolder : String
  confirmSel : Bool
  destFolder : String
  differentDrive : Bool
  sourceFiles : List SrcFile
  destFree : Option Nat
  spaceConfirm : Bool
  passwordInput : Option String
  credsOk : Bool
deriving DecidableEq

/-- How one `on_backup_button` invocation ends: one of the early returns, or
the start of the background thread with the captured arguments. -/
inductive Outcome where
  | noSource
  | cancelledSelection
  | noDest
  | spaceAbort
  | passwordRequired
  | credsFailed
  | started (encrypt : Bool) (password : Option String) (upload : Bool)
      (creds : Bool) (dest : String)
deriving DecidableEq

/-- Whether the background backup thread was started. -/
def Outcome.isStarted : Outcome → Bool
  | .started _ _ _ _ _ => true
  | _ => false

/-- The default destination used when the user does not choose one:
`os.path.join(os.getcwd(), "backup_storage")`. -/
def defaultDest : String := "backup_storage"

/-- `on_backup_button`, step by step: source selection, confirmation,
destination selection (or `os.makedirs` of the default), the
`confirm_space` gate, the password prompt when `encrypt` is set, the
credential acquisition when `upload` is set, and finally the thread start. -/
def on_backup_button (e : Env) : Outcome × List Event :=
  if e.sourceFolder == "" then
    (.noSource,
      [Event.askDirectory "backup", Event.showWarning "Selection Error"])
  else if !e.confirmSel then
    (.cancelledSelection,
      [Event.askDirectory "backup", Event.askYesNoDialog "Confirm Selection"])
  else if e.chooseStorage && (e.destFolder == "") then
    (.noDest,
      [Event.askDirectory "backup", Event.askYesNoDialog "Confirm Selection",
        Event.askDirectory "destination", Event.showWarning "Selection Error"])
  else
    let backup_destination :=
      if e.chooseStorage then e.destFolder else defaultDest
    let tr0 :=
      [Event.askDirectory "backup", Event.askYesNoDialog "Confirm Selection"] ++
        (if e.chooseStorage then
          Event.askDirectory "destination" ::
            (if !e.differentDrive then [Event.showWarning "Selection Warning"]
             else [])
         else [Event.makeDirs defaultDest])
    let cs := confirm_space e.sourceFolder backup_destination e.sourceFiles
      e.destFree e.spaceConfirm
    if !cs.1 then
      (.spaceAbort, tr0 ++ cs.2)
    else if e.encrypt && !passTruthy e.passwordInput then
      (.passwordRequired,
        tr0 ++ cs.2 ++
          [Event.askString "Password", Event.showErrorDialog "Password Required"])
    else
      let pwEvents := if e.encrypt then [Event.askString "Password"] else []
      let password := if e.encrypt then e.passwordInput else none
      if e.upload && !e.credsOk then
        (.credsFailed, tr0 ++ cs.2 ++ pwEvents ++ [Event.authFlow])
      else
        let credEvents := if e.upload then [Event.authFlow] else []
        (.started e.encrypt password e.upload (e.upload && e.credsOk)
            backup_destination,
          tr0 ++ cs.2 ++ pwEvents ++ credEvents)

/-! ## Scheduler (`on_schedule_backup_button` lines 466-489) -/

/-- Seconds per day. -/
def daySecs : Nat := 86400

/-- A scheduled job's pending state: the next-fire instant in seconds. -/
structure SchedJob where
  nextFire : Nat
deriving DecidableEq

/-- Modelled from the spec: `schedule.run_pending` of the external `schedule`
library (not part of this repository), as the spec describes it — the loop
"compares current time to each job's next-fire time; on reaching or passing
it, the loop invokes the corresponding BackupJob once ... then advances the
job's next-fire time by one day". -/
def run_pending (now : Nat) (j : SchedJob) : Bool × SchedJob :=
  if j.nextFire ≤ now then (true, ⟨j.nextFire + daySecs⟩) else (false, j)

/-- `run_schedule_loop`: the `while True: schedule.run_pending(); time.sleep(1)`
polling loop, observed over a finite list of poll instants.  Returns the
number of job invocations and the final pending state. -/
def run_schedule_loop : List Nat → SchedJob → Nat × SchedJob
  | [], j => (0, j)
  | t :: ts, j =>
    let step := run_pending t j
    let rest := run_schedule_loop ts step.2
    ((if step.1 then 1 else 0) + rest.1, rest.2)

/-! ## Helper lemmas -/

/-- Shifting the accumulator out of the `get_folder_size` fold. -/
theorem foldl_size_init (l : List SrcFile) : ∀ init : Nat,
    l.foldl (fun total_size f => total_size + f.size.getD 0) init =
      init + l.foldl (fun total_size f => total_size + f.size.getD 0) 0 := by
  induction l with
  | nil => intro init; simp
  | cons f fs ih =>
    intro init
    simp only [List.foldl_cons]
    rw [ih (init + f.size.getD 0), ih (0 + f.size.getD 0)]
    omega

/-- `get_folder_size` on a cons. -/
theorem get_folder_size_cons (f : SrcFile) (fs : List SrcFile) :
    get_folder_size (f :: fs) = f.size.getD 0 + get_folder_size fs := by
  unfold get_folder_size
  simp only [List.foldl_cons]
  rw [foldl_size_init fs (0 + f.size.getD 0)]
  omega

/-- `statFile` events are never filesystem writes, so the size walk
contributes no writes. -/
theorem sizeEvents_no_write (src : String) (files : List SrcFile) :
    (sizeEvents src files).filter isFsWrite = [] := by
  unfold sizeEvents
  rw [List.filter_eq_nil_iff]
  intro a ha
  rcases List.mem_cons.mp ha with h | h
  · subst h; simp [isFsWrite]
  · obtain ⟨f, _, rfl⟩ := List.mem_map.mp h
    simp [isFsWrite]

/-- The `confirm_space` trace contains no filesystem writes. -/
theorem confirm_space_no_write (src dest : String) (files : List SrcFile)
    (du : Option Nat) (uc : Bool) :
    (confirm_space src dest files du uc).2.filter isFsWrite = [] := by
  by_cases h : get_available_space du < get_folder_size files <;>
    simp [confirm_space, h, List.filter_append, sizeEvents_no_write, isFsWrite]

/-! ## C2 -/

/-- C2 counterexample: with one 5-byte file and 10 free bytes (available ≥
required), `confirm_space` still returns `False` when the user answers "No"
to the proceed dialog, so the space check does not return ok=true for every
input with `availableBytes ≥ requiredBytes`. -/
theorem confirm_space_can_refuse_despite_space :
    get_folder_size [⟨"a.txt", some 5, true⟩] ≤ get_available_space (some 10) ∧
      (confirm_space "src" "dst" [⟨"a.txt", some 5, true⟩] (some 10) false).1
        = false := by
  decide

/-- C2 (amended): whenever `availableBytes ≥ requiredBytes` — with
`requiredBytes` the recursive sum of readable file sizes and
`availableBytes` the destination free space — `confirm_space` returns the
user's answer to the confirmation dialog, so it returns ok=true exactly when
the user confirms. -/
theorem confirm_space_delegates_to_user (src dest : String)
    (files : List SrcFile) (du : Option Nat) (uc : Bool)
    (h : get_folder_size files ≤ get_available_space du) :
    (confirm_space src dest files du uc).1 = uc := by
  unfold confirm_space
  simp [Nat.not_lt.mpr h]

/-- C2 witness: a concrete run with enough space returns the user's answer. -/
theorem confirm_space_delegates_to_user_witness :
    get_folder_size [⟨"a.txt", some 5, true⟩] ≤ get_available_space (some 10) ∧
      (confirm_space "src" "dst" [⟨"a.txt", some 5, true⟩] (some 10) true).1
        = true :=
  ⟨by decide,
    confirm_space_delegates_to_user "src" "dst" [⟨"a.txt", some 5, true⟩]
      (some 10) true (by decide)⟩

/-! ## C8 -/

/-- C8: when `availableBytes < requiredBytes` the space check returns
ok=false (it shows a dialog instead of raising — the embedding is total by
construction and the code's only exception sources are wrapped in
try/except), and the check's trace performs no filesystem writes on the
source or the destination. -/
theorem insufficient_space_returns_false (src dest : String)
    (files : List SrcFile) (du : Option Nat) (uc : Bool)
    (h : get_available_space du < get_folder_size files) :
    (confirm_space src dest files du uc).1 = false ∧
      (confirm_space src dest files du uc).2.filter isFsWrite = [] := by
  refine ⟨?_, confirm_space_no_write src dest files du uc⟩
  unfold confirm_space
  simp [h]

/-- C8 witness: 3 free bytes against a 5-byte source. -/
theorem insufficient_space_returns_false_witness :
    get_available_space (some 3) < get_folder_size [⟨"a.txt", some 5, true⟩] ∧
      (confirm_space "src" "dst" [⟨"a.txt", some 5, true⟩] (some 3) true).1
          = false ∧
        (confirm_space "src" "dst" [⟨"a.txt", some 5, true⟩] (some 3)
            true).2.filter isFsWrite = [] :=
  ⟨by decide,
    insufficient_space_returns_false "src" "dst" [⟨"a.txt", some 5, true⟩]
      (some 3) true (by decide)⟩

/-! ## C9 -/

/-- C9 counterexample: with a source whose single file's size cannot be read
and a destination whose free space cannot be determined, the space check
does **not** report insufficient space — the computed source size is 0, so
the check proceeds to the confirmation dialog and returns `True` when the
user confirms. -/
theorem space_failure_not_reported_insufficient :
    get_available_space none = 0 ∧
      (confirm_space "src" "dst" [⟨"a.txt", none, true⟩] none true).1
        = true := by
  decide

/-- C9 (amended): the space computation is total by construction; a file
whose size cannot be read contributes 0 bytes (removing unreadable files
does not change the computed size), and a failure determining the
destination's free space yields availableBytes = 0, which makes the check
report insufficient space whenever the computed source size is positive. -/
theorem size_failures_default_to_zero (src dest : String)
    (files : List SrcFile) (uc : Bool)
    (hpos : 0 < get_folder_size files) :
    get_folder_size files
        = get_folder_size (files.filter (fun f => f.size.isSome)) ∧
      (confirm_space src dest files none uc).1 = false := by
  constructor
  · clear hpos
    induction files with
    | nil => rfl
    | cons f fs ih =>
      rw [get_folder_size_cons]
      cases hs : f.size with
      | none => simp [List.filter_cons, hs, ih]
      | some n => simp [List.filter_cons, hs, get_folder_size_cons, ih]
  · unfold confirm_space
    simp only [get_available_space, Option.getD_none]
    simp [hpos]

/-- C9 witness: a 5-byte readable file alongside an unreadable one, with
free-space detection failing. -/
theorem size_failures_default_to_zero_witness :
    0 < get_folder_size [⟨"a.txt", some 5, true⟩, ⟨"b.txt", none, true⟩] ∧
      get_folder_size [⟨"a.txt", some 5, true⟩, ⟨"b.txt", none, true⟩]
          = get_folder_size
            ([⟨"a.txt", some 5, true⟩, ⟨"b.txt", none, true⟩].filter
              (fun f => f.size.isSome)) ∧
        (confirm_space "src" "dst"
            [⟨"a.txt", some 5, true⟩, ⟨"b.txt", none, true⟩] none true).1
          = false :=
  ⟨by decide,
    (size_failures_default_to_zero "src" "dst"
        [⟨"a.txt", some 5, true⟩, ⟨"b.txt", none, true⟩] true (by decide)).1,
    (size_failures_default_to_zero "src" "dst"
        [⟨"a.txt", some 5, true⟩, ⟨"b.txt", none, true⟩] true (by decide)).2⟩

/-! ## Build-trace lemmas -/

/-- Every event of the plain-zip copy loop is a per-file read, a per-file
failure, or a progress notification. -/
theorem zipFileEvents_mem (fs : List SrcFile) : ∀ c t : Nat, ∀ a : Event,
    a ∈ zipFileEvents fs c t →
      (∃ p, a = Event.readSrcFile p) ∨ (∃ p, a = Event.srcFileError p) ∨
        ∃ x y, a = Event.progress x y := by
  induction fs with
  | nil => intro c t a h; simp [zipFileEvents] at h
  | cons f fs ih =>
    intro c t a h
    cases haddOk : f.addOk <;> simp only [zipFileEvents, haddOk] at h <;>
      simp only [Bool.false_eq_true, if_false, if_true, List.mem_cons] at h <;>
      rcases h with rfl | rfl | h
    · exact Or.inr (Or.inl ⟨f.relpath, rfl⟩)
    · exact Or.inr (Or.inr ⟨c + 1, t, rfl⟩)
    · exact ih (c + 1) t a h
    · exact Or.inl ⟨f.relpath, rfl⟩
    · exact Or.inr (Or.inr ⟨c + 1, t, rfl⟩)
    · exact ih (c + 1) t a h

/-- The copy loop's progress callbacks, computed generically: starting from
counter `c`, the loop emits `progress (c+1, total)`, `progress (c+2, total)`,
…, one per file, regardless of whether each file's write succeeded. -/
theorem zipFileEvents_filter_progress (fs : List SrcFile) :
    ∀ c t : Nat, (zipFileEvents fs c t).filter isProgress
      = (List.range fs.length).map (fun k => Event.progress (c + k + 1) t) := by
  induction fs with
  | nil => intro c t; rfl
  | cons f fs ih =>
    intro c t
    have hcons : (zipFileEvents (f :: fs) c t).filter isProgress
        = Event.progress (c + 1) t ::
          (zipFileEvents fs (c + 1) t).filter isProgress := by
      cases haddOk : f.addOk <;>
        simp [zipFileEvents, haddOk, List.filter_cons, isProgress]
    rw [hcons, ih (c + 1) t, List.length_cons, List.range_succ_eq_map,
      List.map_cons, List.map_map]
    simp only [List.cons.injEq]
    constructor
    · simp
    · apply List.map_congr_left
      intro k _
      simp only [Function.comp_apply]
      congr 1
      omega

/-- The copy loop emits one per-file processing event for every file, success
or failure. -/
theorem zipFileEvents_filter_fileProc (fs : List SrcFile) :
    ∀ c t : Nat, ((zipFileEvents fs c t).filter isFileProc).length
      = fs.length := by
  induction fs with
  | nil => intro c t; rfl
  | cons f fs ih =>
    intro c t
    cases haddOk : f.addOk <;>
      simp [zipFileEvents, haddOk, List.filter_cons, isFileProc, isProgress,
        ih (c + 1) t]

/-- The copy loop contains no events satisfying a predicate that rejects
reads, read failures and progress notifications. -/
theorem zipFileEvents_filter_other (p : Event → Bool)
    (h1 : ∀ s, p (Event.readSrcFile s) = false)
    (h2 : ∀ s, p (Event.srcFileError s) = false)
    (h3 : ∀ c t, p (Event.progress c t) = false) (fs : List SrcFile)
    (c t : Nat) : (zipFileEvents fs c t).filter p = [] := by
  rw [List.filter_eq_nil_iff]
  intro a ha
  rcases zipFileEvents_mem fs c t a ha with ⟨q, rfl⟩ | ⟨q, rfl⟩ | ⟨x, y, rfl⟩ <;>
    simp [h1, h2, h3]

/-- The copy loop emits no status-label updates. -/
theorem zipFileEvents_statuses (fs : List SrcFile) (c t : Nat) :
    statuses (zipFileEvents fs c t) = [] := by
  unfold statuses
  rw [List.filterMap_eq_nil_iff]
  intro a ha
  rcases zipFileEvents_mem fs c t a ha with ⟨q, rfl⟩ | ⟨q, rfl⟩ | ⟨x, y, rfl⟩ <;>
    rfl

/-- The per-file reads of the encrypted build contribute no events satisfying
a predicate that rejects reads. -/
theorem map_readSrcFile_filter (p : Event → Bool)
    (h1 : ∀ s, p (Event.readSrcFile s) = false) (fs : List SrcFile) :
    (fs.map (fun f => Event.readSrcFile f.relpath)).filter p = [] := by
  induction fs with
  | nil => rfl
  | cons f fs ih => simp [List.filter_cons, h1, ih]

/-- Neither build mode emits a status-label update. -/
theorem build_statuses (src dest pw : String) (files : List SrcFile)
    (ts : DateTime) :
    statuses (create_zip_backup src dest files ts).2 = [] ∧
      statuses (create_encrypted_zip src dest files pw ts).2 = [] := by
  constructor
  · simp only [create_zip_backup, statuses, List.filterMap_cons, statusOf]
    exact zipFileEvents_statuses files 0 files.length
  · simp only [create_encrypted_zip, statuses, List.filterMap_cons,
      List.filterMap_append, statusOf, List.filterMap_nil, List.append_nil]
    rw [List.filterMap_eq_nil_iff]
    intro a ha
    obtain ⟨f, _, rfl⟩ := List.mem_map.mp ha
    rfl

/-- Neither build mode removes a file. -/
theorem build_no_remove (src dest pw : String) (files : List SrcFile)
    (ts : DateTime) :
    (create_zip_backup src dest files ts).2.filter isRemove = [] ∧
      (create_encrypted_zip src dest files pw ts).2.filter isRemove = [] := by
  constructor
  · simp [create_zip_backup, List.filter_cons, isRemove,
      zipFileEvents_filter_other isRemove (fun _ => rfl) (fun _ => rfl)
        (fun _ _ => rfl) files 0 files.length]
  · simp [create_encrypted_zip, List.filter_cons, List.filter_append, isRemove,
      map_readSrcFile_filter isRemove (fun _ => rfl) files]

/-- Neither build mode attempts an upload. -/
theorem build_no_upload (src dest pw : String) (files : List SrcFile)
    (ts : DateTime) :
    (create_zip_backup src dest files ts).2.filter isUploadEvent = [] ∧
      (create_encrypted_zip src dest files pw ts).2.filter isUploadEvent
        = [] := by
  constructor
  · simp [create_zip_backup, List.filter_cons, isUploadEvent,
      zipFileEvents_filter_other isUploadEvent (fun _ => rfl) (fun _ => rfl)
        (fun _ _ => rfl) files 0 files.length]
  · simp [create_encrypted_zip, List.filter_cons, List.filter_append,
      isUploadEvent, map_readSrcFile_filter isUploadEvent (fun _ => rfl) files]

/-! ## C5 -/

/-- C5: in plain mode the build emits exactly one progress notification per
visited file — the k-th carries `(k+1, total)` with `total` the precomputed
file count — independent of per-file success; every file yields a processing
event (no single failure aborts the loop); and the archive path is returned. -/
theorem plain_build_progress_per_file (src dest : String)
    (files : List SrcFile) (ts : DateTime) :
    (create_zip_backup src dest files ts).2.filter isProgress
        = (List.range files.length).map
          (fun k => Event.progress (k + 1) files.length) ∧
      ((create_zip_backup src dest files ts).2.filter isFileProc).length
          = files.length ∧
        (create_zip_backup src dest files ts).1
          = dest ++ "/" ++ zip_filename (basename src) ts := by
  refine ⟨?_, ?_, rfl⟩
  · have h : (create_zip_backup src dest files ts).2.filter isProgress
        = (zipFileEvents files 0 files.length).filter isProgress := by
      simp [create_zip_backup, List.filter_cons, isProgress]
    rw [h, zipFileEvents_filter_progress files 0 files.length]
    apply List.map_congr_left
    intro k _
    congr 1
    omega
  · have h : (create_zip_backup src dest files ts).2.filter isFileProc
        = (zipFileEvents files 0 files.length).filter isFileProc := by
      simp [create_zip_backup, List.filter_cons, isFileProc]
    rw [h, zipFileEvents_filter_fileProc files 0 files.length]

/-! ## C10 -/

/-- C10: in both modes the only filesystem write of the build is the creation
of the new archive file under the destination root; nothing under the source
root is created, modified or deleted (every other event is a read of the
source tree). -/
theorem build_only_write_is_archive (src dest pw : String)
    (files : List SrcFile) (ts : DateTime) :
    (create_zip_backup src dest files ts).2.filter isFsWrite
        = [Event.writeArchive (dest ++ "/" ++ zip_filename (basename src) ts)] ∧
      (create_encrypted_zip src dest files pw ts).2.filter isFsWrite
        = [Event.writeArchive
            (dest ++ "/" ++ zip_filename (basename src) ts)] := by
  constructor
  · simp [create_zip_backup, List.filter_cons, isFsWrite,
      zipFileEvents_filter_other isFsWrite (fun _ => rfl) (fun _ => rfl)
        (fun _ _ => rfl) files 0 files.length]
  · simp [create_encrypted_zip, List.filter_cons, List.filter_append,
      isFsWrite, map_readSrcFile_filter isFsWrite (fun _ => rfl) files]

/-! ## Background-task lemmas -/

/-- With upload requested and a credential present, the status channel emits
the same four texts whether the transfer succeeds or fails: the code shows an
error dialog on failure but then unconditionally reports "Upload Completed". -/
theorem task_statuses_upload (src dest : String) (enc : Bool)
    (pw : Option String) (files : List SrcFile) (ts : DateTime) (uok : Bool) :
    statuses (background_backup_task src dest enc pw true true files ts uok).2
      = ["Creating Backup...", "Backup Completed",
          "Uploading to Google Drive...", "Upload Completed"] := by
  have h1 : List.filterMap statusOf (create_zip_backup src dest files ts).2
      = [] := (build_statuses src dest (pw.getD "") files ts).1
  have h2 : List.filterMap statusOf
      (create_encrypted_zip src dest files (pw.getD "") ts).2 = [] :=
    (build_statuses src dest (pw.getD "") files ts).2
  by_cases hb : (enc && passTruthy pw) = true <;> cases uok <;>
    simp [background_backup_task, upload_to_google_drive, hb, statuses,
      statusOf, List.filterMap_append, List.filterMap_cons, h1, h2]

/-- Without a credential, the task builds, reports "Backup Completed", and
runs no upload block at all. -/
theorem task_statuses_no_creds (src dest : String) (enc : Bool)
    (pw : Option String) (files : List SrcFile) (ts : DateTime) (uok : Bool) :
    statuses (background_backup_task src dest enc pw true false files ts uok).2
      = ["Creating Backup...", "Backup Completed"] := by
  have h1 : List.filterMap statusOf (create_zip_backup src dest files ts).2
      = [] := (build_statuses src dest (pw.getD "") files ts).1
  have h2 : List.filterMap statusOf
      (create_encrypted_zip src dest files (pw.getD "") ts).2 = [] :=
    (build_statuses src dest (pw.getD "") files ts).2
  by_cases hb : (enc && passTruthy pw) = true <;>
    simp [background_backup_task, hb, statuses, statusOf,
      List.filterMap_append, List.filterMap_cons, h1, h2]

/-! ## C4 -/

/-- C4 counterexample: with upload requested, a credential present and the
transfer failing, the status channel reports exactly the same sequence as a
successful run — ending in "Upload Completed" — so no upload-failed status
distinct from the success status is ever reported. -/
theorem upload_failure_same_status_counterexample :
    statuses (background_backup_task "s" "d" false none true true
        [⟨"a.txt", some 1, true⟩] ⟨2026, 1, 2, 3, 4, 5⟩ false).2
      = statuses (background_backup_task "s" "d" false none true true
        [⟨"a.txt", some 1, true⟩] ⟨2026, 1, 2, 3, 4, 5⟩ true).2
    ∧ "Upload Completed" ∈ statuses (background_backup_task "s" "d" false none
        true true [⟨"a.txt", some 1, true⟩] ⟨2026, 1, 2, 3, 4, 5⟩ false).2 := by
  decide

/-- C4 (amended): when the build succeeds and the upload fails, the local
archive is never removed and the build phase still reports "Backup
Completed"; an "Upload Error" dialog is shown, but the status channel
reports exactly the statuses of a successful run (ending "Upload
Completed"), not a distinct upload-failed status. -/
theorem upload_failure_keeps_artifact (src dest : String) (enc : Bool)
    (pw : Option String) (files : List SrcFile) (ts : DateTime) :
    (background_backup_task src dest enc pw true true files ts false).2.filter
        isRemove = []
    ∧ "Backup Completed" ∈ statuses
        (background_backup_task src dest enc pw true true files ts false).2
    ∧ Event.showErrorDialog "Upload Error" ∈
        (background_backup_task src dest enc pw true true files ts false).2
    ∧ statuses
          (background_backup_task src dest enc pw true true files ts false).2
        = statuses
          (background_backup_task src dest enc pw true true files ts true).2 := by
  refine ⟨?_, ?_, ?_, ?_⟩
  · have h1 := (build_no_remove src dest (pw.getD "") files ts).1
    have h2 := (build_no_remove src dest (pw.getD "") files ts).2
    by_cases hb : (enc && passTruthy pw) = true <;>
      simp [background_backup_task, upload_to_google_drive, hb,
        List.filter_append, List.filter_cons, isRemove, h1, h2]
  · rw [task_statuses_upload]
    simp
  · by_cases hb : (enc && passTruthy pw) = true <;>
      simp [background_backup_task, upload_to_google_drive, hb,
        List.mem_append, List.mem_cons]
  · rw [task_statuses_upload, task_statuses_upload]

/-! ## Interactive-flow lemmas -/

/-- `statFile` walk entries satisfy no predicate that rejects them. -/
theorem map_statFile_filter (p : Event → Bool)
    (h1 : ∀ s, p (Event.statFile s) = false) (fs : List SrcFile) :
    (fs.map (fun f => Event.statFile f.relpath)).filter p = [] := by
  induction fs with
  | nil => rfl
  | cons f fs ih => simp [List.filter_cons, h1, ih]

/-- The space-check trace creates no archive. -/
theorem confirm_space_no_archiveWrite (src dest : String)
    (files : List SrcFile) (du : Option Nat) (uc : Bool) :
    (confirm_space src dest files du uc).2.filter isArchiveWrite = [] := by
  by_cases h : get_available_space du < get_folder_size files <;>
    simp [confirm_space, h, List.filter_append, List.filter_cons, sizeEvents,
      isArchiveWrite, map_statFile_filter isArchiveWrite (fun _ => rfl) files]

/-- No archive-creation event occurs in a space-check trace. -/
theorem writeArchive_not_mem_confirm_space (src dest : String)
    (files : List SrcFile) (du : Option Nat) (uc : Bool) (p : String) :
    Event.writeArchive p ∉ (confirm_space src dest files du uc).2 := by
  intro hmem
  have h := confirm_space_no_archiveWrite src dest files du uc
  rw [List.filter_eq_nil_iff] at h
  exact h _ hmem rfl

/-- `on_backup_button` itself never writes an archive: archive creation only
happens in the background task, which it may or may not start. -/
theorem on_backup_button_no_archiveWrite (e : Env) :
    (on_backup_button e).2.filter isArchiveWrite = [] := by
  simp only [on_backup_button]
  repeat' split
  all_goals
    simp +decide only [List.filter_append, List.filter_cons, List.filter_nil,
      confirm_space_no_archiveWrite, List.append_nil, List.nil_append]

/-! ## C1 -/

/-- C1 counterexample: a run with `encrypt` set and the password prompt
answered empty still performs file I/O — the source-size walk, the
destination free-space probe, and even a write (creation of the default
destination directory) — before it fails with the password-required error,
so the failure does not precede all file I/O on source and destination. -/
theorem config_error_after_io_counterexample :
    (on_backup_button ⟨true, false, false, "docs", true, "", true,
        [⟨"a.txt", some 5, true⟩], some 100, true, none, false⟩).1
      = Outcome.passwordRequired
    ∧ (on_backup_button ⟨true, false, false, "docs", true, "", true,
        [⟨"a.txt", some 5, true⟩], some 100, true, none, false⟩).2.filter
          isFsAccess ≠ []
    ∧ (on_backup_button ⟨true, false, false, "docs", true, "", true,
        [⟨"a.txt", some 5, true⟩], some 100, true, none, false⟩).2.filter
          isFsWrite ≠ [] := by
  decide

/-- C1 (amended): with `encrypt=true` and an empty or missing password the
interactive flow never starts the background task — so no archive, encrypted
or plain, is ever created — and the flow itself writes no archive; however
the failure is raised only at the password prompt, which the code reaches
after the space check's file I/O on source and destination (and after
creating the default destination directory when no custom one is chosen). -/
theorem empty_password_never_starts_build (e : Env)
    (henc : e.encrypt = true) (hpw : passTruthy e.passwordInput = false) :
    (on_backup_button e).1.isStarted = false ∧
      (on_backup_button e).2.filter isArchiveWrite = [] := by
  refine ⟨?_, on_backup_button_no_archiveWrite e⟩
  simp only [on_backup_button, henc, hpw, Bool.not_false, Bool.true_and,
    if_true]
  repeat' split
  all_goals rfl

/-- C1 witness: the amended statement at a concrete run with a cancelled
password prompt. -/
theorem empty_password_never_starts_build_witness :
    passTruthy none = false ∧
      ((on_backup_button ⟨true, false, false, "docs", true, "", true,
          [⟨"a.txt", some 5, true⟩], some 100, true, none, false⟩).1.isStarted
          = false ∧
        (on_backup_button ⟨true, false, false, "docs", true, "", true,
            [⟨"a.txt", some 5, true⟩], some 100, true, none,
            false⟩).2.filter isArchiveWrite = []) :=
  ⟨by decide,
    empty_password_never_starts_build
      ⟨true, false, false, "docs", true, "", true,
        [⟨"a.txt", some 5, true⟩], some 100, true, none, false⟩
      (by decide) (by decide)⟩

/-! ## C3 -/

/-- C3 counterexample: when credential acquisition fails (`upload=true`,
no credential), `on_backup_button` returns before starting the background
task: the backup job does not run, no build phase happens (no status is ever
reported, no archive written), so a null credential **is** fatal to the
whole job at the caller. -/
theorem null_credentials_abort_counterexample :
    (on_backup_button ⟨false, true, false, "docs", true, "", true,
        [⟨"a.txt", some 5, true⟩], some 100, true, none, false⟩).1
      = Outcome.credsFailed
    ∧ (on_backup_button ⟨false, true, false, "docs", true, "", true,
        [⟨"a.txt", some 5, true⟩], some 100, true, none,
        false⟩).1.isStarted = false
    ∧ statuses (on_backup_button ⟨false, true, false, "docs", true, "", true,
        [⟨"a.txt", some 5, true⟩], some 100, true, none, false⟩).2 = []
    ∧ (on_backup_button ⟨false, true, false, "docs", true, "", true,
        [⟨"a.txt", some 5, true⟩], some 100, true, none, false⟩).2.filter
          isArchiveWrite = [] := by
  decide

/-- C3 (amended): a null credential aborts the interactive flow before the
backup job starts (the caller returns instead of treating null as
skip-upload); only `background_backup_task` itself, when invoked with a null
credential, skips the upload block while the build phase still completes and
reports "Backup Completed". -/
theorem null_credentials_abort_before_job (e : Env) (src dest : String)
    (enc : Bool) (pw : Option String) (files : List SrcFile) (ts : DateTime)
    (uok : Bool) (hup : e.upload = true) (hcr : e.credsOk = false) :
    (on_backup_button e).1.isStarted = false
    ∧ "Backup Completed" ∈ statuses
        (background_backup_task src dest enc pw true false files ts uok).2
    ∧ (background_backup_task src dest enc pw true false files ts
        uok).2.filter isUploadEvent = [] := by
  refine ⟨?_, ?_, ?_⟩
  · simp only [on_backup_button, hup, hcr, Bool.not_false, Bool.true_and,
      if_true]
    repeat' split
    all_goals rfl
  · rw [task_statuses_no_creds]
    simp
  · have h1 := (build_no_upload src dest (pw.getD "") files ts).1
    have h2 := (build_no_upload src dest (pw.getD "") files ts).2
    by_cases hb : (enc && passTruthy pw) = true <;>
      simp [background_backup_task, hb, List.filter_append, List.filter_cons,
        isUploadEvent, h1, h2]

/-- C3 witness: the amended statement at a concrete aborted run and a
concrete credential-less task invocation. -/
theorem null_credentials_abort_before_job_witness :
    (on_backup_button ⟨false, true, false, "docs", true, "", true,
        [⟨"a.txt", some 5, true⟩], some 100, true, none,
        false⟩).1.isStarted = false
    ∧ "Backup Completed" ∈ statuses (background_backup_task "s" "d" false none
        true false [⟨"a.txt", some 1, true⟩] ⟨2026, 1, 2, 3, 4, 5⟩ true).2
    ∧ (background_backup_task "s" "d" false none true false
        [⟨"a.txt", some 1, true⟩] ⟨2026, 1, 2, 3, 4, 5⟩ true).2.filter
          isUploadEvent = [] :=
  null_credentials_abort_before_job
    ⟨false, true, false, "docs", true, "", true, [⟨"a.txt", some 5, true⟩],
      some 100, true, none, false⟩
    "s" "d" false none [⟨"a.txt", some 1, true⟩] ⟨2026, 1, 2, 3, 4, 5⟩ true
    (by decide) (by decide)

/-! ## Timestamp-injectivity lemmas -/

/-- Zero-padded rendering always has exactly the requested width. -/
theorem padDigits_length (w : Nat) : ∀ n : Nat, (padDigits w n).length = w := by
  induction w with
  | zero => intro n; rfl
  | succ w ih => intro n; simp [padDigits, ih]

/-- Digit characters are injective below 10. -/
theorem digitChar_inj {a b : Nat} (ha : a < 10) (hb : b < 10)
    (h : digitChar a = digitChar b) : a = b := by
  have key : ∀ d : Fin 10, (digitChar d.val).toNat = 48 + d.val := by decide
  have h1 := key ⟨a, ha⟩
  have h2 := key ⟨b, hb⟩
  simp only at h1 h2
  have := congrArg Char.toNat h
  omega

/-- Zero-padded rendering is injective on values that fit the width. -/
theorem padDigits_inj (w : Nat) : ∀ m n : Nat, m < 10 ^ w → n < 10 ^ w →
    padDigits w m = padDigits w n → m = n := by
  induction w with
  | zero =>
    intro m n hm hn _
    simp only [pow_zero, Nat.lt_one_iff] at hm hn
    omega
  | succ w ih =>
    intro m n hm hn h
    simp only [padDigits] at h
    obtain ⟨h1, h2⟩ := List.append_inj h (by simp [padDigits_length])
    have hd : m % 10 = n % 10 := by
      have hc := (List.cons.injEq _ _ _ _).mp h2
      exact digitChar_inj (Nat.mod_lt m (by omega)) (Nat.mod_lt n (by omega))
        hc.1
    have hq : m / 10 = n / 10 := by
      refine ih (m / 10) (n / 10) ?_ ?_ h1 <;>
        · rw [Nat.div_lt_iff_lt_mul (by omega : (0:Nat) < 10)]
          rw [pow_succ] at *
          omega
    omega

/-- The character list behind the rendered timestamp, split at its fields. -/
theorem timestampStr_data (t : DateTime) :
    (timestampStr t).data
      = padDigits 4 t.year ++ (padDigits 2 t.month ++ (padDigits 2 t.day ++
        ('_' :: (padDigits 2 t.hour ++ (padDigits 2 t.minute ++
          padDigits 2 t.second))))) := by
  have hu : ("_" : String).data = ['_'] := rfl
  simp [timestampStr, pad, String.data_append, List.append_assoc, hu]

/-- Distinct valid clock readings render to distinct timestamp strings. -/
theorem timestampStr_inj {t1 t2 : DateTime} (h1 : validDT t1)
    (h2 : validDT t2) (h : timestampStr t1 = timestampStr t2) : t1 = t2 := by
  have hd := congrArg String.data h
  rw [timestampStr_data, timestampStr_data] at hd
  obtain ⟨hy, hd⟩ := List.append_inj hd (by simp [padDigits_length])
  obtain ⟨hmo, hd⟩ := List.append_inj hd (by simp [padDigits_length])
  obtain ⟨hdy, hd⟩ := List.append_inj hd (by simp [padDigits_length])
  have hd' := (List.cons.injEq _ _ _ _).mp hd
  obtain ⟨hh, hd''⟩ := List.append_inj hd'.2 (by simp [padDigits_length])
  obtain ⟨hmi, hs⟩ := List.append_inj hd'' (by simp [padDigits_length])
  obtain ⟨y1, mo1, d1, hh1, mi1, s1⟩ := t1
  obtain ⟨y2, mo2, d2, hh2, mi2, s2⟩ := t2
  obtain ⟨hb1, hb2, hb3, hb4, hb5, hb6⟩ := h1
  obtain ⟨hc1, hc2, hc3, hc4, hc5, hc6⟩ := h2
  dsimp only at hy hmo hdy hh hmi hs hb1 hb2 hb3 hb4 hb5 hb6 hc1 hc2 hc3
  dsimp only at hc4 hc5 hc6
  have e10000 : (10:Nat) ^ 4 = 10000 := by norm_num
  have e100 : (10:Nat) ^ 2 = 100 := by norm_num
  have ey := padDigits_inj 4 y1 y2 (by omega) (by omega) hy
  have emo := padDigits_inj 2 mo1 mo2 (by omega) (by omega) hmo
  have ed := padDigits_inj 2 d1 d2 (by omega) (by omega) hdy
  have eh := padDigits_inj 2 hh1 hh2 (by omega) (by omega) hh
  have emi := padDigits_inj 2 mi1 mi2 (by omega) (by omega) hmi
  have es := padDigits_inj 2 s1 s2 (by omega) (by omega) hs
  simp [ey, emo, ed, eh, emi, es]

/-- Distinct valid clock readings give distinct artifact filenames for the
same source folder. -/
theorem zip_filename_inj {folder : String} {t1 t2 : DateTime}
    (h1 : validDT t1) (h2 : validDT t2)
    (h : zip_filename folder t1 = zip_filename folder t2) : t1 = t2 := by
  have hd := congrArg String.data h
  simp only [zip_filename, String.data_append, List.append_assoc] at hd
  have hd1 := List.append_cancel_left hd
  have hd2 := List.append_cancel_left hd1
  have hd3 := List.append_cancel_right hd2
  exact timestampStr_inj h1 h2 (String.ext hd3)

/-! ## C6 -/

/-- C6: both build modes place the artifact at
`destRoot ++ "/" ++ basename(sourceRoot) ++ "_backup_" ++ timestamp ++ ".zip"`
(the timestamp rendered as `YYYYMMDD_HHMMSS`), and two builds of the same
source folder whose clock readings differ — as they do whenever the start
times are at least one second apart — produce distinct artifact filenames. -/
theorem artifact_naming_and_uniqueness (src dest folder : String)
    (files : List SrcFile) (pw : String) (t1 t2 : DateTime)
    (h1 : validDT t1) (h2 : validDT t2) (hne : t1 ≠ t2) :
    (create_zip_backup src dest files t1).1
        = dest ++ "/" ++ (basename src ++ "_backup_" ++ timestampStr t1 ++ ".zip")
    ∧ (create_encrypted_zip src dest files pw t1).1
        = dest ++ "/" ++ (basename src ++ "_backup_" ++ timestampStr t1 ++ ".zip")
    ∧ zip_filename folder t1 ≠ zip_filename folder t2 := by
  refine ⟨rfl, rfl, fun h => hne (zip_filename_inj h1 h2 h)⟩

/-- C6 witness: two readings one second apart give distinct filenames. -/
theorem artifact_naming_and_uniqueness_witness :
    validDT ⟨2026, 10, 12, 2, 0, 0⟩ ∧ validDT ⟨2026, 10, 12, 2, 0, 1⟩ ∧
      (⟨2026, 10, 12, 2, 0, 0⟩ : DateTime) ≠ ⟨2026, 10, 12, 2, 0, 1⟩ ∧
        zip_filename "data" ⟨2026, 10, 12, 2, 0, 0⟩
          ≠ zip_filename "data" ⟨2026, 10, 12, 2, 0, 1⟩ :=
  ⟨by decide, by decide, by decide,
    (artifact_naming_and_uniqueness "data" "dst" "data" [] "pw"
        ⟨2026, 10, 12, 2, 0, 0⟩ ⟨2026, 10, 12, 2, 0, 1⟩
        (by decide) (by decide) (by decide)).2.2⟩

/-! ## C7 -/

/-- A loop whose polls all precede the next-fire time never invokes the job
and leaves the pending state unchanged. -/
theorem sched_no_fire (ts : List Nat) : ∀ j : SchedJob,
    (∀ t ∈ ts, t < j.nextFire) → run_schedule_loop ts j = (0, j) := by
  induction ts with
  | nil => intro j _; rfl
  | cons t ts ih =>
    intro j h
    have ht : ¬j.nextFire ≤ t := Nat.not_le.mpr (h t (by simp))
    have ih' := ih j (fun u hu => h u (by simp [hu]))
    simp [run_schedule_loop, run_pending, ht, ih']

/-- C7: over any sequence of polls that all happen before the following
day's fire time, the loop invokes the job exactly once if some poll reaches
or passes the fire time and never otherwise (in particular never before the
fire time), and each invocation advances the next-fire time by exactly one
day. -/
theorem scheduler_fires_exactly_once (j : SchedJob) (ts : List Nat)
    (hb : ∀ t ∈ ts, t < j.nextFire + daySecs) :
    (run_schedule_loop ts j).1
        = (if ts.any (fun t => decide (j.nextFire ≤ t)) then 1 else 0)
      ∧ (run_schedule_loop ts j).2.nextFire
        = j.nextFire + daySecs * (run_schedule_loop ts j).1 := by
  revert hb
  induction ts with
  | nil => intro hb; simp [run_schedule_loop]
  | cons t ts ih =>
    intro hb
    by_cases hf : j.nextFire ≤ t
    · have hrest : run_schedule_loop ts ⟨j.nextFire + daySecs⟩
          = (0, ⟨j.nextFire + daySecs⟩) :=
        sched_no_fire ts ⟨j.nextFire + daySecs⟩ (fun u hu => hb u (by simp [hu]))
      simp [run_schedule_loop, run_pending, hf, hrest, List.any_cons]
    · have ih' := ih (fun u hu => hb u (by simp [hu]))
      simpa [run_schedule_loop, run_pending, hf, List.any_cons] using ih'

/-- C7 witness: the spec's scenario — fire time 02:00:00 (7200 s), polls at
01:59:59 (7199 s) and 02:00:01 (7201 s): the job fires exactly once and the
next-fire time advances by one day. -/
theorem scheduler_fires_exactly_once_witness :
    (run_schedule_loop [7199, 7201] ⟨7200⟩).1 = 1 ∧
      (run_schedule_loop [7199, 7201] ⟨7200⟩).2.nextFire = 93600 := by
  have h := scheduler_fires_exactly_once ⟨7200⟩ [7199, 7201] (by decide)
  constructor
  · rw [h.1]; decide
  · rw [h.2, h.1]; decide

end BackupScript
